import Mathlib

/-!
Verification development for the CSV schema validator (`src/main.py`).

The Python source is shallowly embedded: each validator becomes a Lean
function on `String` values and a `ConstraintOptions` record; fallible code
(uncaught Python exceptions, `sys.exit`) is modelled with `Except PyErr`.
Behaviour of the Python runtime that the source merely calls
(`float`/`str` rendering of doubles, `datetime.strptime`) is abstracted
into a `PyRuntime` record of oracle functions; `int(...)` parsing and
`re.match` are modelled concretely since the claims evaluate them.
-/

/-- Uncaught Python-level failures of `main.py`: `sys.exit` after printing a
diagnostic, and the exception classes the code can let escape. -/
inductive PyErr where
  | fatalExit (msg : String)
  | typeError
  | indexError
  | valueError
  | reError
deriving DecidableEq, Repr

/-- Truthiness-level success test for an `Except` result: `true` exactly when
the computation returned a value rather than raising. -/
def isOk {ε α : Type} : Except ε α → Bool
  | .ok _ => true
  | .error _ => false

deriving instance DecidableEq for Except

/-- The `options` constraint bag of one schema column (`main.py` reads these
keys from a JSON dict; absent/null keys are `none`).  The single dynamically
typed `min_value`/`max_value` keys are split by their documented per-type
payload: numeric (`ℚ`, covering Python int and float bounds) for
integer/float columns, and date strings (`min_value_dt`/`max_value_dt`) for
datetime columns. -/
structure ConstraintOptions where
  required : Option Bool
  min_length : Option ℤ
  max_length : Option ℤ
  min_value : Option ℚ
  max_value : Option ℚ
  min_value_dt : Option String
  max_value_dt : Option String
  allowed_values : Option (List String)
  regex : Option String
  format : Option String
  precision : Option ℤ
deriving DecidableEq, Repr

/-- A `ConstraintOptions` record with every constraint absent. -/
def noOpts : ConstraintOptions :=
  { required := none, min_length := none, max_length := none,
    min_value := none, max_value := none,
    min_value_dt := none, max_value_dt := none,
    allowed_values := none, regex := none, format := none, precision := none }

/-- The guard `(options["required"] == True and value == "") or
(options["required"] == True and value is None)` that opens every validator.
Cell values are strings (never Python `None`), so the second disjunct is
always false. -/
def reqEmpty (o : ConstraintOptions) (value : String) : Bool :=
  o.required == some true && value == ""

/-- Whitespace characters stripped by Python `int(str)`. -/
def isPySpace (c : Char) : Bool :=
  c == ' ' || c == '\t' || c == '\n' || c == '\r' || c == '\x0b' || c == '\x0c'

/-- Digit run of Python `int(str)`: digits with single underscores allowed
between digits only.  `acc` is the value of the digits consumed so far. -/
def pyDigitsCore (acc : ℕ) : List Char → Option ℕ
  | [] => some acc
  | '_' :: c :: rest =>
      if c.isDigit then pyDigitsCore (acc * 10 + (c.toNat - 48)) rest else none
  | c :: rest =>
      if c.isDigit then pyDigitsCore (acc * 10 + (c.toNat - 48)) rest else none

/-- Model of Python `int(value)` on strings: strips surrounding whitespace,
accepts one optional sign, then a digit run (underscores permitted between
digits).  Returns `none` where Python raises `ValueError`. -/
def pyIntParse (s : String) : Option ℤ :=
  let cs := ((s.toList.dropWhile isPySpace).reverse.dropWhile isPySpace).reverse
  match cs with
  | '+' :: c :: rest =>
      if c.isDigit then (pyDigitsCore (c.toNat - 48) rest).map Int.ofNat else none
  | '-' :: c :: rest =>
      if c.isDigit then (pyDigitsCore (c.toNat - 48) rest).map (fun n => -(n : ℤ)) else none
  | c :: rest =>
      if c.isDigit then (pyDigitsCore (c.toNat - 48) rest).map Int.ofNat else none
  | [] => none

example : pyIntParse "150" = some 150 := by decide
example : pyIntParse " -4 " = some (-4) := by decide
example : pyIntParse "1_0" = some 10 := by decide
example : pyIntParse "" = none := by decide
example : pyIntParse "abc" = none := by decide
example : pyIntParse "1_" = none := by decide

/-- One regex atom of the modelled `re` subset: a literal character, the
wildcard `.`, or a character class of ranges (single characters are
degenerate ranges), possibly negated. -/
inductive RAtom where
  | lit (c : Char)
  | dot
  | cls (neg : Bool) (ranges : List (Char × Char))
deriving DecidableEq, Repr

/-- One compiled regex token: an atom, an atom under a postfix repetition
operator, or one of the anchors `^` (start) / `$` (stop). -/
inductive RTok where
  | atom (a : RAtom)
  | star (a : RAtom)
  | plus (a : RAtom)
  | opt (a : RAtom)
  | start
  | stop
deriving DecidableEq, Repr

/-- Whether a single character is accepted by an atom (Python `.` matches
anything except a newline; a negated class inverts range membership). -/
def atomMatch (a : RAtom) (c : Char) : Bool :=
  match a with
  | .lit d => c == d
  | .dot => c != '\n'
  | .cls neg ranges =>
      let inR := ranges.any (fun r => decide (r.1 ≤ c) && decide (c ≤ r.2))
      if neg then !inR else inR

/-- Items of a character class after the opening bracket (and optional `^`):
`a-b` ranges and single characters, up to the closing bracket. -/
def parseClsItems : List Char → Option (List (Char × Char) × List Char)
  | [] => none
  | ']' :: rest => some ([], rest)
  | a :: '-' :: b :: rest =>
      if b = ']' then some ([(a, a), ('-', '-')], rest)
      else
        match parseClsItems rest with
        | some (items, rest') => some ((a, b) :: items, rest')
        | none => none
  | a :: rest =>
      match parseClsItems rest with
      | some (items, rest') => some ((a, a) :: items, rest')
      | none => none

/-- Fuel-driven tokenizer for the modelled `re` subset: anchors, literals,
escapes, `.`, character classes, and postfix `*`/`+`/`?`.  Patterns outside
the subset give `none` (treated as uncompilable).  The fuel only bounds
recursion; `parseRegex` supplies enough for any input. -/
def parseToks : ℕ → List Char → Option (List RTok)
  | _, [] => some []
  | 0, _ :: _ => none
  | fuel + 1, '^' :: rest =>
      (parseToks fuel rest).map (fun ts => RTok.start :: ts)
  | fuel + 1, '$' :: rest =>
      (parseToks fuel rest).map (fun ts => RTok.stop :: ts)
  | fuel + 1, c :: rest =>
      let step : Option (RAtom × List Char) :=
        match c, rest with
        | '\\', d :: r2 =>
            if d = 'd' then some (RAtom.cls false [('0', '9')], r2)
            else if d = 's' then
              some (RAtom.cls false
                [(' ', ' '), ('\t', '\t'), ('\n', '\n'), ('\r', '\r'),
                 ('\x0b', '\x0b'), ('\x0c', '\x0c')], r2)
            else if d = 'w' then
              some (RAtom.cls false
                [('a', 'z'), ('A', 'Z'), ('0', '9'), ('_', '_')], r2)
            else if d.isAlphanum then none
            else some (RAtom.lit d, r2)
        | '\\', [] => none
        | '[', '^' :: r3 =>
            (parseClsItems r3).map (fun p => (RAtom.cls true p.1, p.2))
        | '[', r2 =>
            (parseClsItems r2).map (fun p => (RAtom.cls false p.1, p.2))
        | '.', _ => some (RAtom.dot, rest)
        | _, _ =>
            if c = '(' || c = ')' || c = '|' || c = '\x7b' || c = '\x7d' ||
               c = '*' || c = '+' || c = '?' then none
            else some (RAtom.lit c, rest)
      match step with
      | none => none
      | some (a, rest') =>
          match rest' with
          | '*' :: r3 => (parseToks fuel r3).map (fun ts => RTok.star a :: ts)
          | '+' :: r3 => (parseToks fuel r3).map (fun ts => RTok.plus a :: ts)
          | '?' :: r3 => (parseToks fuel r3).map (fun ts => RTok.opt a :: ts)
          | _ => (parseToks fuel rest').map (fun ts => RTok.atom a :: ts)

/-- Compile a pattern string of the modelled subset into tokens; `none` for
patterns the model treats as uncompilable (`re.error`). -/
def parseRegex (p : String) : Option (List RTok) :=
  parseToks p.length p.toList

/-- Backtracking matcher with the semantics of Python `re.match`: the match
is anchored at position 0 and may consume any prefix of the subject.
`atStart` records whether position 0 has not yet been left (for `^`);
`$` accepts at the end of the subject or just before a sole trailing
newline, as in Python without `MULTILINE`.  Recursion is driven by fuel so
the function reduces definitionally; every recursive call strictly
decreases `s.length + toks.length`, so `reMatchStart`'s fuel supply never
runs out. -/
def reMatch : ℕ → List RTok → List Char → Bool → Bool
  | _, [], _, _ => true
  | 0, _ :: _, _, _ => false
  | fuel + 1, RTok.start :: ts, s, atStart => atStart && reMatch fuel ts s atStart
  | fuel + 1, RTok.stop :: ts, s, atStart =>
      (decide (s = []) || decide (s = ['\n'])) && reMatch fuel ts s atStart
  | _ + 1, RTok.atom _ :: _, [], _ => false
  | fuel + 1, RTok.atom a :: ts, c :: s', _ => atomMatch a c && reMatch fuel ts s' false
  | fuel + 1, RTok.star a :: ts, s, atStart =>
      reMatch fuel ts s atStart ||
        (match s with
         | [] => false
         | c :: s' => atomMatch a c && reMatch fuel (RTok.star a :: ts) s' false)
  | _ + 1, RTok.plus _ :: _, [], _ => false
  | fuel + 1, RTok.plus a :: ts, c :: s', _ =>
      atomMatch a c && reMatch fuel (RTok.star a :: ts) s' false
  | fuel + 1, RTok.opt a :: ts, s, atStart =>
      reMatch fuel ts s atStart ||
        (match s with
         | [] => false
         | c :: s' => atomMatch a c && reMatch fuel ts s' false)

/-- Model of the truthiness of `re.match(pattern-tokens, value)`. -/
def reMatchStart (toks : List RTok) (v : String) : Bool :=
  reMatch (v.length + toks.length + 1) toks v.toList true

example : parseRegex "^A" = some [RTok.start, RTok.atom (RAtom.lit 'A')] := by decide
example : reMatchStart [RTok.start, RTok.atom (RAtom.lit 'A')] "ABC" = true := by decide
example : (parseRegex "^A$").map (fun t => reMatchStart t "ABC") = some false := by decide
example : (parseRegex "a*b").map (fun t => reMatchStart t "aaabX") = some true := by decide
example : (parseRegex "[0-9]+").map (fun t => reMatchStart t "x1") = some false := by decide

/-- Splitter state for `pySplitChar`: characters of the current part are
accumulated in reverse in `cur`. -/
def splitCharAux (sep : Char) (cur : List Char) : List Char → List (List Char)
  | [] => [cur.reverse]
  | c :: rest =>
      if c = sep then cur.reverse :: splitCharAux sep [] rest
      else splitCharAux sep (c :: cur) rest

/-- Model of Python `s.split(sep)` for a one-character separator: ordered
parts, empty parts preserved (so `"a,".split(",") = ["a", ""]` and
`"".split(",") = [""]`). -/
def pySplitChar (sep : Char) (s : String) : List String :=
  (splitCharAux sep [] s.toList).map (fun cs => String.mk cs)

example : pySplitChar ',' "a,b,c" = ["a", "b", "c"] := by decide
example : pySplitChar ',' "a," = ["a", ""] := by decide
example : pySplitChar ',' "" = [""] := by decide
example : pySplitChar '.' "5.0" = ["5", "0"] := by decide

/-- Oracle functions for the Python runtime behaviour `main.py` calls but
does not define: `float(s)` (the exact rational value of the resulting
binary64, `none` where Python raises `ValueError`), `str` of such a value,
and `datetime.strptime(s, fmt)` as an ordinal timestamp (`none` where it
raises `ValueError`). -/
structure PyRuntime where
  floatParse : String → Option ℚ
  floatStr : ℚ → String
  strptime : String → String → Option ℤ

/-- Translation of `validate_string` (main.py lines 195-223). -/
def validate_string (value : String) (o : ConstraintOptions) : Except PyErr Bool :=
  if reqEmpty o value then .ok false
  else if (match o.min_length with
           | some m => decide ((value.length : ℤ) < m)
           | none => false) then .ok false
  else if (match o.max_length with
           | some m => decide ((value.length : ℤ) > m)
           | none => false) then .ok false
  else if (match o.allowed_values with
           | some l => !(l.contains value)
           | none => false) then .ok false
  else
    match o.regex with
    | none => .ok true
    | some p =>
        match parseRegex p with
        | none => .error .reError
        | some toks => if !(reMatchStart toks value) then .ok false else .ok true

/-- Translation of `validate_integer` (main.py lines 226-252). -/
def validate_integer (value : String) (o : ConstraintOptions) : Except PyErr Bool :=
  if reqEmpty o value then .ok false
  else
    match pyIntParse value with
    | none => .ok false
    | some n =>
        if (match o.min_value with
            | some m => decide ((n : ℚ) < m)
            | none => false) then .ok false
        else if (match o.max_value with
                 | some M => decide ((n : ℚ) > M)
                 | none => false) then .ok false
        else .ok true

example : validate_integer "150" { noOpts with min_value := some 0, max_value := some 100 } = .ok false := by decide
example : validate_integer "100" { noOpts with min_value := some 0, max_value := some 100 } = .ok true := by decide
example : validate_string "ABC" { noOpts with regex := some "^A" } = .ok true := by decide
example : validate_string "ABC" { noOpts with regex := some "^A$" } = .ok false := by decide

/-- Translation of `validate_float` (main.py lines 255-287).  The precision
check is `len(str(value).split(".")[1]) > precision` on the parsed value:
when the rendering holds no `"."` the indexing `[1]` raises `IndexError`. -/
def validate_float (rt : PyRuntime) (value : String) (o : ConstraintOptions) :
    Except PyErr Bool :=
  if reqEmpty o value then .ok false
  else
    match rt.floatParse value with
    | none => .ok false
    | some q =>
        if (match o.min_value with
            | some m => decide (q < m)
            | none => false) then .ok false
        else if (match o.max_value with
                 | some M => decide (q > M)
                 | none => false) then .ok false
        else
          match o.precision with
          | none => .ok true
          | some p =>
              match pySplitChar '.' (rt.floatStr q) with
              | _ :: frac :: _ =>
                  if decide ((frac.length : ℤ) > p) then .ok false else .ok true
              | _ => .error .indexError

/-- Python equality between a string cell value and a bool: `"x" == True` is
always `False` in Python, including for the string `"True"`. -/
def pyStrEqBool (_ : String) (_ : Bool) : Bool := false

/-- Translation of `validate_boolean` (main.py lines 290-310).  Its first
statement iterates `options["allowed_values"]`, so a `None` there raises
`TypeError` before any other check runs. -/
def validate_boolean (value : String) (o : ConstraintOptions) : Except PyErr Bool :=
  match o.allowed_values with
  | none => .error .typeError
  | some raw =>
      let allowed : List Bool := raw.map (fun x => x == "True")
      if reqEmpty o value then .ok false
      else if decide (allowed.length > 0) && !(allowed.any (fun b => pyStrEqBool value b))
        then .ok false
      else .ok true

/-- One optional-bound parse of `validate_datetime`: `None` stays absent, a
set bound goes through `strptime` whose `ValueError` is not caught there
(main.py lines 334-337 sit outside the `try`). -/
def strptimeBound (rt : PyRuntime) (f : String) : Option String → Except PyErr (Option ℤ)
  | none => .ok none
  | some m =>
      match rt.strptime m f with
      | none => .error .valueError
      | some mv => .ok (some mv)

/-- Translation of `validate_datetime` (main.py lines 313-346).  The two
bound parses happen outside the `try`, so their `ValueError` escapes; a
`None` format makes the first `strptime` call raise `TypeError` (the `try`
only catches `ValueError`), so the `none`-format outcome is `TypeError` on
every path that reaches a `strptime` call — which is every path past the
required guard. -/
def validate_datetime (rt : PyRuntime) (value : String) (o : ConstraintOptions) :
    Except PyErr Bool :=
  if reqEmpty o value then .ok false
  else
    match o.format with
    | none => .error .typeError
    | some f =>
        match strptimeBound rt f o.min_value_dt with
        | .error e => .error e
        | .ok mv =>
            match strptimeBound rt f o.max_value_dt with
            | .error e => .error e
            | .ok xv =>
                match rt.strptime value f with
                | none => .ok false
                | some dv =>
                    if (match mv with
                        | some m => decide (dv < m)
                        | none => false) then .ok false
                    else if (match xv with
                             | some M => decide (dv > M)
                             | none => false) then .ok false
                    else .ok true

/-- Translation of `validate_array` (main.py lines 349-376): split on the
literal comma, length bounds on the part count, then membership of every
part (empty parts included) in `allowed_values` when set. -/
def validate_array (value : String) (o : ConstraintOptions) : Except PyErr Bool :=
  if reqEmpty o value then .ok false
  else
    let array_values := pySplitChar ',' value
    if (match o.min_length with
        | some m => decide ((array_values.length : ℤ) < m)
        | none => false) then .ok false
    else if (match o.max_length with
             | some m => decide ((array_values.length : ℤ) > m)
             | none => false) then .ok false
    else
      match o.allowed_values with
      | some l => if array_values.all (fun x => l.contains x) then .ok true else .ok false
      | none => .ok true

/-- Translation of `validate_object` (main.py lines 379-395): only the
required guard, otherwise always valid. -/
def validate_object (value : String) (o : ConstraintOptions) : Except PyErr Bool :=
  if reqEmpty o value then .ok false else .ok true

/-- Translation of `validate_data_type` (main.py lines 174-192): a literal
`match` on the type name (equivalent to sequential equality tests), falling
through to `print` + `sys.exit(1)` for anything unrecognized. -/
def validate_data_type (rt : PyRuntime) (data_type : String) (value : String)
    (o : ConstraintOptions) : Except PyErr Bool :=
  if data_type = "string" then validate_string value o
  else if data_type = "integer" then validate_integer value o
  else if data_type = "float" then validate_float rt value o
  else if data_type = "boolean" then validate_boolean value o
  else if data_type = "datetime" then validate_datetime rt value o
  else if data_type = "array" then validate_array value o
  else if data_type = "object" then validate_object value o
  else .error (.fatalExit ("Error: Unknown data type: " ++ data_type))

/-- One schema entry: `{"name": ..., "type": ..., "options": {...}}`. -/
structure ColumnSpec where
  name : String
  type : String
  options : ConstraintOptions

/-- A row maps each column name to its raw string cell value (the spec fixes
that every schema column is present as a key, so a total function). -/
def Row : Type := String → String

/-- One structured validation finding, as the dicts appended in `main.py`. -/
structure ErrorEntry where
  row : ℕ
  column : String
  error : String
deriving DecidableEq, Repr

/-- The entry `check_required` appends for column `col` at row `index`. -/
def req_entry (col : ColumnSpec) (index : ℕ) : ErrorEntry :=
  ⟨index, col.name, "Error: Required column " ++ col.name ++ " is empty"⟩

/-- The entry `check_data_type` appends for value `v` of column `col` at row
`index`. -/
def type_entry (col : ColumnSpec) (v : String) (index : ℕ) : ErrorEntry :=
  ⟨index, col.name, "Error: Invalid value " ++ v ++ " for column " ++ col.name⟩

/-- Translation of `check_required` (main.py lines 398-419). -/
def check_required (col : ColumnSpec) (row : Row) (index : ℕ)
    (errors : List ErrorEntry) : List ErrorEntry :=
  if col.options.required = some true ∧ row col.name = "" then
    errors ++ [req_entry col index]
  else errors

/-- Translation of `check_data_type` (main.py lines 422-444): the `and` in
`row[...] != "" and not validate_data_type(...)` short-circuits, so the
dispatcher is only invoked on a non-empty cell. -/
def check_data_type (rt : PyRuntime) (col : ColumnSpec) (row : Row) (index : ℕ)
    (errors : List ErrorEntry) : Except PyErr (List ErrorEntry) :=
  if row col.name ≠ "" then
    match validate_data_type rt col.type (row col.name) col.options with
    | .error e => .error e
    | .ok true => .ok errors
    | .ok false => .ok (errors ++ [type_entry col (row col.name) index])
  else .ok errors

/-- Inner loop of `main` (main.py lines 465-467): one row against every
schema column, required-check then type-check per column. -/
def process_row (rt : PyRuntime) : List ColumnSpec → Row → ℕ → List ErrorEntry →
    Except PyErr (List ErrorEntry)
  | [], _, _, errors => .ok errors
  | col :: rest, row, index, errors =>
      match check_data_type rt col row index (check_required col row index errors) with
      | .error e => .error e
      | .ok errors' => process_row rt rest row index errors'

/-- Outer loop of `main` (main.py lines 464-467), started at row ordinal
`index` with the errors accumulated so far. -/
def process_from (rt : PyRuntime) (schema : List ColumnSpec) :
    List Row → ℕ → List ErrorEntry → Except PyErr (List ErrorEntry)
  | [], _, errors => .ok errors
  | r :: rest, index, errors =>
      match process_row rt schema r index errors with
      | .error e => .error e
      | .ok errors' => process_from rt schema rest (index + 1) errors'

/-- The whole schema walk of `main` (main.py lines 463-467): all rows from
ordinal 0, starting with the empty error list. -/
def process_table (rt : PyRuntime) (schema : List ColumnSpec) (rows : List Row) :
    Except PyErr (List ErrorEntry) :=
  process_from rt schema rows 0 []

/-! ### Concrete fixtures -/

/-- Concrete runtime oracle agreeing with CPython on the inputs the witnesses
and counterexamples below evaluate: `float("5.0")` is `5.0` with
`str(5.0) = "5.0"`; other strings fail to parse.  `strptime` under `"%Y"`
reads an integer year. -/
def rtPy : PyRuntime where
  floatParse s := if s = "5.0" then some 5 else none
  floatStr q := if q = 5 then "5.0" else ""
  strptime s f := if f = "%Y" then pyIntParse s else none

/-- The spec §8 scenario column: integer `qty`, required, bounds 0..100. -/
def qtyColReq : ColumnSpec :=
  { name := "qty", type := "integer",
    options := { noOpts with required := some true, min_value := some 0, max_value := some 100 } }

/-- A row whose every cell is `"150"`. -/
def row150 : Row := fun _ => "150"

/-- A row whose every cell is the empty string. -/
def rowEmptyCell : Row := fun _ => ""

/-- A row whose every cell is `"abc"`. -/
def rowAbc : Row := fun _ => "abc"

/-! ### Spec-side definitions (worded from the claims, for comparison) -/

/-- Claim C3's acceptance condition, from the spec's words: the value parses
as a base-10 integer and the parsed number is `≥ min_value` and
`≤ max_value` whenever those bounds are set (inclusive both ends). -/
def integerSpecValid (v : String) (o : ConstraintOptions) : Bool :=
  match pyIntParse v with
  | none => false
  | some n =>
      (match o.min_value with
       | some m => decide (m ≤ (n : ℚ))
       | none => true) &&
      (match o.max_value with
       | some M => decide ((n : ℚ) ≤ M)
       | none => true)

/-- Claim C6's acceptance condition, from the spec's words: split on the
literal comma, the part count must satisfy the length bounds, and when
`allowed_values` is set every part (empty parts included) must be a
member. -/
def arraySpecValid (v : String) (o : ConstraintOptions) : Bool :=
  let parts := pySplitChar ',' v
  (match o.min_length with
   | some m => decide (m ≤ (parts.length : ℤ))
   | none => true) &&
  (match o.max_length with
   | some M => decide ((parts.length : ℤ) ≤ M)
   | none => true) &&
  (match o.allowed_values with
   | some l => parts.all (fun x => l.contains x)
   | none => true)

/-! ### Helper lemmas -/

theorem reqEmpty_false_of_ne {o : ConstraintOptions} {v : String} (hv : v ≠ "") :
    reqEmpty o v = false := by
  unfold reqEmpty
  have : (v == "") = false := by
    simp [hv]
  simp [this]

theorem check_required_eq (col : ColumnSpec) (row : Row) (index : ℕ)
    (errs : List ErrorEntry) :
    check_required col row index errs =
      errs ++ (if col.options.required = some true ∧ row col.name = ""
               then [req_entry col index] else []) := by
  unfold check_required
  split <;> simp

theorem check_data_type_empty (rt : PyRuntime) (col : ColumnSpec) (row : Row)
    (index : ℕ) (errs : List ErrorEntry) (h : row col.name = "") :
    check_data_type rt col row index errs = .ok errs := by
  unfold check_data_type
  simp [h]

theorem check_data_type_ok (rt : PyRuntime) (col : ColumnSpec) (row : Row)
    (index : ℕ) (errs : List ErrorEntry) (h : row col.name ≠ "") (b : Bool)
    (hb : validate_data_type rt col.type (row col.name) col.options = .ok b) :
    check_data_type rt col row index errs =
      .ok (if b then errs else errs ++ [type_entry col (row col.name) index]) := by
  unfold check_data_type
  rw [if_pos h, hb]
  cases b <;> rfl

/-! ### Claim C1 -/

/-- Claim C1 as stated is refuted on the message text: for the required
integer column `qty` and an empty cell at row 0, `check_required` appends
exactly one entry, but its message is `"Error: Required column qty is
empty"` — not the claimed `"Required column qty is empty"`. -/
theorem C1_message_counterexample :
    check_required qtyColReq rowEmptyCell 0 [] =
      [⟨0, "qty", "Error: Required column qty is empty"⟩] ∧
    "Error: Required column qty is empty" ≠ "Required column qty is empty" := by
  exact ⟨by decide, by decide⟩

/-- Claim C1 (amended): for every schema column with `required = true` and
every row whose raw cell value for that column is empty, `check_required`
appends exactly one entry carrying the row index and column name with
message `"Error: Required column <name> is empty"`, regardless of the
column's declared type; for a non-empty cell (or a non-required column) it
appends nothing. -/
theorem C1_check_required_amended (col : ColumnSpec) (row : Row) (index : ℕ)
    (errs : List ErrorEntry) :
    check_required col row index errs =
      errs ++ (if col.options.required = some true ∧ row col.name = ""
               then [⟨index, col.name, "Error: Required column " ++ col.name ++ " is empty"⟩]
               else []) :=
  check_required_eq col row index errs

/-! ### Claim C2 -/

/-- Claim C2 as stated is refuted on the message text: for the integer
column `qty` and the non-empty invalid cell `"abc"`, `check_data_type`
appends exactly one entry, but its message is `"Error: Invalid value abc
for column qty"` — not the claimed `"Invalid value abc for column qty"`. -/
theorem C2_message_counterexample :
    check_data_type rtPy qtyColReq rowAbc 0 [] =
      .ok [⟨0, "qty", "Error: Invalid value abc for column qty"⟩] ∧
    "Error: Invalid value abc for column qty" ≠ "Invalid value abc for column qty" := by
  exact ⟨by decide, by decide⟩

/-- Claim C2 (amended): `check_data_type` appends an entry with message
`"Error: Invalid value <value> for column <name>"` exactly when the raw
cell is non-empty and the dispatcher returns false; on an empty cell the
dispatcher is not invoked (the result is `.ok errs` for every runtime and
declared type, even ones on which the dispatcher would terminate), so an
empty required cell yields the required-violation entry only. -/
theorem C2_check_data_type_amended (rt : PyRuntime) (col : ColumnSpec) (row : Row)
    (index : ℕ) (errs : List ErrorEntry) :
    (row col.name = "" → check_data_type rt col row index errs = .ok errs) ∧
    (row col.name ≠ "" → ∀ b,
      validate_data_type rt col.type (row col.name) col.options = .ok b →
      check_data_type rt col row index errs =
        .ok (if b then errs
             else errs ++ [type_entry col (row col.name) index])) ∧
    (col.options.required = some true → row col.name = "" →
      check_data_type rt col row index (check_required col row index errs) =
        .ok (errs ++ [req_entry col index])) := by
  refine ⟨fun h => check_data_type_empty rt col row index errs h,
          fun h b hb => check_data_type_ok rt col row index errs h b hb,
          fun h1 h2 => ?_⟩
  rw [check_required_eq, if_pos ⟨h1, h2⟩]
  exact check_data_type_empty rt col row index _ h2

/-- Witness for C2 at concrete inputs: an empty cell of a column with an
unrecognized declared type still yields `.ok []` (the dispatcher is never
consulted), and the non-empty invalid cell `"abc"` of the integer column
`qty` yields exactly the type-violation entry. -/
theorem C2_check_data_type_amended_witness :
    check_data_type rtPy ⟨"c", "frob", noOpts⟩ rowEmptyCell 0 [] = .ok [] ∧
    check_data_type rtPy qtyColReq rowAbc 0 [] =
      .ok (if false then [] else [] ++ [type_entry qtyColReq "abc" 0]) := by
  refine ⟨(C2_check_data_type_amended rtPy ⟨"c", "frob", noOpts⟩ rowEmptyCell 0 []).1 rfl,
          (C2_check_data_type_amended rtPy qtyColReq rowAbc 0 []).2.1 (by decide) false (by decide)⟩

/-! ### Claim C3 -/

theorem validate_integer_eq_spec (v : String) (o : ConstraintOptions) :
    validate_integer v o = .ok (integerSpecValid v o) := by
  unfold validate_integer integerSpecValid
  by_cases hreq : reqEmpty o v = true
  · have hv : v = "" := by
      unfold reqEmpty at hreq
      simp only [Bool.and_eq_true, beq_iff_eq] at hreq
      exact hreq.2
    subst hv
    simp only [hreq, if_true]
    rfl
  · simp only [Bool.not_eq_true] at hreq
    simp only [hreq, Bool.false_eq_true, if_false]
    cases hp : pyIntParse v with
    | none => rfl
    | some n =>
      rcases hm : o.min_value with _ | m <;> rcases hM : o.max_value with _ | M
      · rfl
      · by_cases h2 : (n : ℚ) > M
        · simp [h2, not_le.mpr h2]
        · simp [h2, not_lt.mp h2]
      · by_cases h1 : (n : ℚ) < m
        · simp [h1, not_le.mpr h1]
        · simp [h1, not_lt.mp h1]
      · by_cases h1 : (n : ℚ) < m
        · simp [h1, not_le.mpr h1]
        · by_cases h2 : (n : ℚ) > M
          · simp [h1, not_lt.mp h1, h2, not_le.mpr h2]
          · simp [h1, not_lt.mp h1, h2, not_lt.mp h2]

/-- Claim C3: the integer validator accepts exactly the values that parse as
a base-10 integer and lie within the inclusive `min_value`/`max_value`
bounds when those are set; parse failure yields false (never an
exception), and a value exactly equal to both bounds is valid. -/
theorem C3_validate_integer (v : String) (o : ConstraintOptions) :
    validate_integer v o = .ok (integerSpecValid v o) ∧
    validate_integer "5" { noOpts with min_value := some 5, max_value := some 5 } = .ok true := by
  exact ⟨validate_integer_eq_spec v o, by decide⟩

/-! ### Claim C5 -/

/-- Options record constraining only by a regex pattern. -/
def optsRegex (p : String) : ConstraintOptions := { noOpts with regex := some p }

/-- Claim C5: the regex constraint of the string validator is start-anchored
partial matching (`re.match` semantics): with only a regex constraint the
validator accepts exactly when the compiled pattern matches some prefix of
the value starting at position 0; concretely `"^A"` accepts `"ABC"` while
`"^A$"` rejects it. -/
theorem C5_regex_start_anchored (v p : String) (toks : List RTok)
    (hp : parseRegex p = some toks) :
    (validate_string v (optsRegex p) = .ok true ↔ reMatchStart toks v = true) ∧
    validate_string "ABC" (optsRegex "^A") = .ok true ∧
    validate_string "ABC" (optsRegex "^A$") = .ok false := by
  refine ⟨?_, by decide, by decide⟩
  have h1 : reqEmpty (optsRegex p) v = false := rfl
  have h2 : (optsRegex p).min_length = none := rfl
  have h3 : (optsRegex p).max_length = none := rfl
  have h4 : (optsRegex p).allowed_values = none := rfl
  have h5 : (optsRegex p).regex = some p := rfl
  unfold validate_string
  simp only [h1, h2, h3, h4, h5, Bool.false_eq_true, if_false]
  rw [hp]
  cases hr : reMatchStart toks v <;> simp [hr]

/-- Witness for C5 at `p = "^A"`, `v = "ABC"`. -/
theorem C5_regex_start_anchored_witness :
    validate_string "ABC" (optsRegex "^A") = .ok true ↔
      reMatchStart [RTok.start, RTok.atom (RAtom.lit 'A')] "ABC" = true :=
  (C5_regex_start_anchored "ABC" "^A" [RTok.start, RTok.atom (RAtom.lit 'A')] (by decide)).1

/-! ### Claim C6 -/

theorem validate_array_eq_spec (v : String) (o : ConstraintOptions) (hv : v ≠ "") :
    validate_array v o = .ok (arraySpecValid v o) := by
  unfold validate_array arraySpecValid
  dsimp only
  have hreq : reqEmpty o v = false := reqEmpty_false_of_ne hv
  simp only [hreq, Bool.false_eq_true, if_false]
  rcases hm : o.min_length with _ | m <;> rcases hM : o.max_length with _ | M <;>
      rcases ha : o.allowed_values with _ | l <;> dsimp only
  · rfl
  · cases hall : (pySplitChar ',' v).all (fun x => l.contains x) <;> simp
  · by_cases h2 : ((pySplitChar ',' v).length : ℤ) > M
    · simp [h2, not_le.mpr h2]
    · simp [h2, not_lt.mp h2]
  · by_cases h2 : ((pySplitChar ',' v).length : ℤ) > M
    · simp [h2, not_le.mpr h2]
    · cases hall : (pySplitChar ',' v).all (fun x => l.contains x) <;>
        simp [h2, not_lt.mp h2]
  · by_cases h1 : ((pySplitChar ',' v).length : ℤ) < m
    · simp [h1, not_le.mpr h1]
    · simp [h1, not_lt.mp h1]
  · by_cases h1 : ((pySplitChar ',' v).length : ℤ) < m
    · simp [h1, not_le.mpr h1]
    · cases hall : (pySplitChar ',' v).all (fun x => l.contains x) <;>
        simp [h1, not_lt.mp h1]
  · by_cases h1 : ((pySplitChar ',' v).length : ℤ) < m
    · simp [h1, not_le.mpr h1]
    · by_cases h2 : ((pySplitChar ',' v).length : ℤ) > M
      · simp [h1, not_lt.mp h1, h2, not_le.mpr h2]
      · simp [h1, not_lt.mp h1, h2, not_lt.mp h2]
  · by_cases h1 : ((pySplitChar ',' v).length : ℤ) < m
    · simp [h1, not_le.mpr h1]
    · by_cases h2 : ((pySplitChar ',' v).length : ℤ) > M
      · simp [h1, not_lt.mp h1, h2, not_le.mpr h2]
      · cases hall : (pySplitChar ',' v).all (fun x => l.contains x) <;>
          simp [h1, not_lt.mp h1, h2, not_lt.mp h2]

/-- Claim C6: for every non-empty value the array validator accepts exactly
when the comma-split part count satisfies the inclusive length bounds and,
when `allowed_values` is set, every part — empty parts from a trailing
comma included — is a member; in particular `"a,b,c"` with `max_length = 2`
is invalid, and `"a,"` against `allowed_values = ["a"]` is invalid because
the unfiltered empty part is not a member. -/
theorem C6_validate_array (v : String) (o : ConstraintOptions) (hv : v ≠ "") :
    validate_array v o = .ok (arraySpecValid v o) ∧
    validate_array "a,b,c" { noOpts with max_length := some 2 } = .ok false ∧
    validate_array "a," { noOpts with allowed_values := some ["a"] } = .ok false := by
  exact ⟨validate_array_eq_spec v o hv, by decide, by decide⟩

/-- Witness for C6 at `v = "a,b"` with all three constraints set. -/
theorem C6_validate_array_witness :
    validate_array "a,b"
        { noOpts with min_length := some 2, max_length := some 2,
                      allowed_values := some ["a", "b"] } =
      .ok (arraySpecValid "a,b"
        { noOpts with min_length := some 2, max_length := some 2,
                      allowed_values := some ["a", "b"] }) :=
  (C6_validate_array "a,b" _ (by decide)).1

/-! ### Claim C9 -/

/-- Claim C9: the dispatcher routes by exact match on the type name to
exactly the corresponding validator and returns its result; every type name
outside the seven terminates the process with the diagnostic
`"Error: Unknown data type: <type>"` instead of returning a boolean. -/
theorem C9_dispatcher (rt : PyRuntime) (t v : String) (o : ConstraintOptions) :
    (t = "string" → validate_data_type rt t v o = validate_string v o) ∧
    (t = "integer" → validate_data_type rt t v o = validate_integer v o) ∧
    (t = "float" → validate_data_type rt t v o = validate_float rt v o) ∧
    (t = "boolean" → validate_data_type rt t v o = validate_boolean v o) ∧
    (t = "datetime" → validate_data_type rt t v o = validate_datetime rt v o) ∧
    (t = "array" → validate_data_type rt t v o = validate_array v o) ∧
    (t = "object" → validate_data_type rt t v o = validate_object v o) ∧
    (t ∉ (["string", "integer", "float", "boolean", "datetime", "array",
           "object"] : List String) →
      validate_data_type rt t v o =
        .error (.fatalExit ("Error: Unknown data type: " ++ t))) := by
  refine ⟨fun h => by subst h; rfl, fun h => by subst h; rfl, fun h => by subst h; rfl,
          fun h => by subst h; rfl, fun h => by subst h; rfl, fun h => by subst h; rfl,
          fun h => by subst h; rfl, fun h => ?_⟩
  simp only [List.mem_cons, List.not_mem_nil, or_false, not_or] at h
  obtain ⟨h1, h2, h3, h4, h5, h6, h7⟩ := h
  unfold validate_data_type
  simp [h1, h2, h3, h4, h5, h6, h7]

/-- Witness for C9: the dispatcher at the recognized name `"integer"` and at
the unrecognized name `"frob"`. -/
theorem C9_dispatcher_witness :
    validate_data_type rtPy "integer" "5" noOpts = validate_integer "5" noOpts ∧
    validate_data_type rtPy "frob" "5" noOpts =
      .error (.fatalExit ("Error: Unknown data type: " ++ "frob")) := by
  exact ⟨(C9_dispatcher rtPy "integer" "5" noOpts).2.1 rfl,
         (C9_dispatcher rtPy "frob" "5" noOpts).2.2.2.2.2.2.2 (by decide)⟩

/-! ### Claim C10 -/

/-- Claim C10: whenever `allowed_values` is `None`, `validate_boolean` does
not return a boolean but raises `TypeError`, because its first statement
iterates `allowed_values`; this happens for every value, even the empty
string of a required column that every other check would short-circuit
on. -/
theorem C10_validate_boolean_raises (v : String) (o : ConstraintOptions)
    (h : o.allowed_values = none) :
    validate_boolean v o = .error .typeError := by
  unfold validate_boolean
  rw [h]

/-- Witness for C10: a required column's empty cell still raises. -/
theorem C10_validate_boolean_raises_witness :
    validate_boolean "" { noOpts with required := some true } = .error .typeError :=
  C10_validate_boolean_raises "" { noOpts with required := some true } rfl

/-! ### Claim C4 -/

theorem validate_string_total (v : String) (o : ConstraintOptions)
    (hre : ∀ p, o.regex = some p → (parseRegex p).isSome = true) :
    isOk (validate_string v o) = true := by
  unfold validate_string
  split
  · rfl
  · split
    · rfl
    · split
      · rfl
      · split
        · rfl
        · cases hro : o.regex with
          | none => rfl
          | some p =>
            dsimp only
            cases hp : parseRegex p with
            | none =>
              have h := hre p hro
              rw [hp] at h
              simp at h
            | some toks =>
              dsimp only
              split <;> rfl

theorem validate_integer_total (v : String) (o : ConstraintOptions) :
    isOk (validate_integer v o) = true := by
  rw [validate_integer_eq_spec]
  rfl

theorem validate_float_total (rt : PyRuntime) (v : String) (o : ConstraintOptions)
    (hdot : ∀ q, rt.floatParse v = some q → o.precision ≠ none →
      2 ≤ (pySplitChar '.' (rt.floatStr q)).length) :
    isOk (validate_float rt v o) = true := by
  unfold validate_float
  split
  · rfl
  · cases hq : rt.floatParse v with
    | none => rfl
    | some q =>
      dsimp only
      split
      · rfl
      · split
        · rfl
        · cases hp : o.precision with
          | none => rfl
          | some p =>
            dsimp only
            have hlen := hdot q hq (by rw [hp]; simp)
            rcases hsp : pySplitChar '.' (rt.floatStr q) with _ | ⟨a, _ | ⟨b, t⟩⟩
            · rw [hsp] at hlen
              simp at hlen
            · rw [hsp] at hlen
              simp at hlen
            · dsimp only
              split <;> rfl

theorem validate_boolean_total (v : String) (o : ConstraintOptions)
    (h : o.allowed_values ≠ none) :
    isOk (validate_boolean v o) = true := by
  unfold validate_boolean
  cases ha : o.allowed_values with
  | none => exact absurd ha h
  | some l =>
    dsimp only
    split
    · rfl
    · split <;> rfl

theorem strptimeBound_ok (rt : PyRuntime) (f : String) (od : Option String)
    (hp : ∀ m, od = some m → (rt.strptime m f).isSome = true) :
    ∃ mv, strptimeBound rt f od = .ok mv := by
  cases od with
  | none => exact ⟨none, rfl⟩
  | some m =>
    have h := hp m rfl
    cases hs : rt.strptime m f with
    | none =>
      rw [hs] at h
      simp at h
    | some mv =>
      exact ⟨some mv, by simp [strptimeBound, hs]⟩

theorem validate_datetime_total (rt : PyRuntime) (v : String) (o : ConstraintOptions)
    (f : String) (hf : o.format = some f)
    (hmin : ∀ m, o.min_value_dt = some m → (rt.strptime m f).isSome = true)
    (hmax : ∀ M, o.max_value_dt = some M → (rt.strptime M f).isSome = true) :
    isOk (validate_datetime rt v o) = true := by
  unfold validate_datetime
  split
  · rfl
  · rw [hf]
    dsimp only
    obtain ⟨mv, hpm⟩ := strptimeBound_ok rt f o.min_value_dt hmin
    obtain ⟨xv, hpM⟩ := strptimeBound_ok rt f o.max_value_dt hmax
    rw [hpm, hpM]
    dsimp only
    cases hv : rt.strptime v f with
    | none => rfl
    | some dv =>
      dsimp only
      split
      · rfl
      · split <;> rfl

theorem validate_array_total (v : String) (o : ConstraintOptions) :
    isOk (validate_array v o) = true := by
  unfold validate_array
  dsimp only
  split
  · rfl
  · split
    · rfl
    · split
      · rfl
      · cases o.allowed_values with
        | none => rfl
        | some l =>
          dsimp only
          split <;> rfl

theorem validate_object_total (v : String) (o : ConstraintOptions) :
    isOk (validate_object v o) = true := by
  unfold validate_object
  split <;> rfl

/-- Claim C4 as stated is refuted: with every constraint absent — a
well-formed options record per the claim — `validate_boolean` on the
non-empty value `"x"` raises `TypeError` instead of returning a boolean. -/
theorem C4_totality_counterexample :
    validate_boolean "x" noOpts = .error .typeError := rfl

/-- Claim C4 (amended): every validator returns strictly true or false and
never raises on well-formed configuration, except for the raising paths the
code contains: `validate_boolean` requires `allowed_values` to be an actual
list (it raises `TypeError` whenever it is `None`); `validate_float` with
`precision` set requires the parsed value's rendering to contain a decimal
point (otherwise `IndexError`); `validate_datetime` requires `format` to be
present and any set bound to parse under it (otherwise `TypeError` /
`ValueError`); and the string validator's regex, when set, must compile.
Under those conditions each of the seven validators is total. -/
theorem C4_validator_totality_amended :
    (∀ v o, (∀ p, o.regex = some p → (parseRegex p).isSome = true) →
      isOk (validate_string v o) = true) ∧
    (∀ v o, isOk (validate_integer v o) = true) ∧
    (∀ (rt : PyRuntime) v o,
      (∀ q, rt.floatParse v = some q → o.precision ≠ none →
        2 ≤ (pySplitChar '.' (rt.floatStr q)).length) →
      isOk (validate_float rt v o) = true) ∧
    (∀ v o, o.allowed_values ≠ none → isOk (validate_boolean v o) = true) ∧
    (∀ (rt : PyRuntime) v o f, o.format = some f →
      (∀ m, o.min_value_dt = some m → (rt.strptime m f).isSome = true) →
      (∀ M, o.max_value_dt = some M → (rt.strptime M f).isSome = true) →
      isOk (validate_datetime rt v o) = true) ∧
    (∀ v o, isOk (validate_array v o) = true) ∧
    (∀ v o, isOk (validate_object v o) = true) :=
  ⟨validate_string_total, validate_integer_total,
   fun rt v o h => validate_float_total rt v o h,
   validate_boolean_total,
   fun rt v o f hf hmin hmax => validate_datetime_total rt v o f hf hmin hmax,
   validate_array_total, validate_object_total⟩

/-- Datetime options of the C4 witness: `%Y` format with a parseable lower
bound and no upper bound. -/
def dtOpts : ConstraintOptions :=
  { noOpts with format := some "%Y", min_value_dt := some "2000" }

/-- Witness for C4 (amended) at concrete inputs: one evaluation per
validator, hypotheses discharged concretely. -/
theorem C4_validator_totality_amended_witness :
    isOk (validate_string "ab" noOpts) = true ∧
    isOk (validate_integer "5" noOpts) = true ∧
    isOk (validate_float rtPy "5.0" { noOpts with precision := some 1 }) = true ∧
    isOk (validate_boolean "x" { noOpts with allowed_values := some ["True"] }) = true ∧
    isOk (validate_datetime rtPy "2017" dtOpts) = true ∧
    isOk (validate_array "a,b" noOpts) = true ∧
    isOk (validate_object "x" noOpts) = true := by
  refine ⟨C4_validator_totality_amended.1 "ab" noOpts ?_,
          C4_validator_totality_amended.2.1 "5" noOpts,
          C4_validator_totality_amended.2.2.1 rtPy "5.0" _ ?_,
          C4_validator_totality_amended.2.2.2.1 "x" _ ?_,
          C4_validator_totality_amended.2.2.2.2.1 rtPy "2017" dtOpts "%Y" rfl ?_ ?_,
          C4_validator_totality_amended.2.2.2.2.2.1 "a,b" noOpts,
          C4_validator_totality_amended.2.2.2.2.2.2 "x" noOpts⟩
  · intro p hp
    simp [noOpts] at hp
  · intro q hq _
    have h2 : (some (5 : ℚ) : Option ℚ) = some q := hq
    injection h2 with h3
    subst h3
    decide
  · decide
  · intro m hm
    have h2 : (some "2000" : Option String) = some m := hm
    injection h2 with h3
    subst h3
    decide
  · intro M hM
    have h2 : (none : Option String) = some M := hM
    exact Option.noConfusion h2

/-! ### Claim C7 -/

/-- Claim C7's stated acceptance criterion for the float validator with
`precision` set, from the claim's words alone: accept iff the value parses
and the digits after the decimal point of the parsed value's default
rendering do not exceed `precision` (nothing else matters). -/
def floatPrecSpecValid (rt : PyRuntime) (v : String) (o : ConstraintOptions) : Bool :=
  match rt.floatParse v with
  | none => false
  | some q =>
      match o.precision with
      | some p => decide (((((pySplitChar '.' (rt.floatStr q)).getD 1 "").length : ℤ)) ≤ p)
      | none => true

/-- Claim C7 as stated is refuted: for value `"5.0"` (parsed value `5.0`,
rendering `"5.0"`, one digit after the point) with `precision = 3` and
`max_value = 4`, the claim's criterion accepts (1 ≤ 3 digits) but the
validator returns false — the bound check, absent from the claim's iff,
fires first. -/
theorem C7_precision_counterexample :
    validate_float rtPy "5.0" { noOpts with max_value := some 4, precision := some 3 } =
      .ok false ∧
    floatPrecSpecValid rtPy "5.0"
      { noOpts with max_value := some 4, precision := some 3 } = true := by
  exact ⟨by decide, by decide⟩

/-- Claim C7 (amended): for a non-empty value that parses, with `precision`
set, *and the min/max bounds satisfied*, the float validator returns false
exactly when the digits after the decimal point in the parsed value's
default rendering (which must contain a decimal point — otherwise the code
raises `IndexError`) exceed `precision`; a value that fails to parse
returns false; and with `precision` unset the bounds are inclusive at both
ends. -/
theorem C7_float_precision_amended (rt : PyRuntime) (v : String) (o : ConstraintOptions) :
    (∀ (q : ℚ) (p : ℤ), v ≠ "" → rt.floatParse v = some q → o.precision = some p →
      (∀ m, o.min_value = some m → ¬ q < m) →
      (∀ M, o.max_value = some M → ¬ M < q) →
      2 ≤ (pySplitChar '.' (rt.floatStr q)).length →
      (validate_float rt v o = .ok false ↔
        p < (((pySplitChar '.' (rt.floatStr q)).getD 1 "").length : ℤ))) ∧
    (rt.floatParse v = none → validate_float rt v o = .ok false) ∧
    (∀ (q : ℚ), v ≠ "" → rt.floatParse v = some q → o.precision = none →
      (∀ m, o.min_value = some m → m ≤ q) →
      (∀ M, o.max_value = some M → q ≤ M) →
      validate_float rt v o = .ok true) := by
  refine ⟨?_, ?_, ?_⟩
  · intro q p hv hq hp hmin hmax hlen
    unfold validate_float
    have hreq : reqEmpty o v = false := reqEmpty_false_of_ne hv
    simp only [hreq, Bool.false_eq_true, if_false]
    rw [hq]
    dsimp only
    have hc1 : (match o.min_value with
                | some m => decide (q < m)
                | none => false) = false := by
      cases hm : o.min_value with
      | none => rfl
      | some m => exact decide_eq_false (hmin m hm)
    have hc2 : (match o.max_value with
                | some M => decide (q > M)
                | none => false) = false := by
      cases hM : o.max_value with
      | none => rfl
      | some M => exact decide_eq_false (hmax M hM)
    simp only [hc1, hc2, Bool.false_eq_true, if_false]
    rw [hp]
    dsimp only
    rcases hsp : pySplitChar '.' (rt.floatStr q) with _ | ⟨a, _ | ⟨b, t⟩⟩
    · rw [hsp] at hlen
      simp at hlen
    · rw [hsp] at hlen
      simp at hlen
    · dsimp only
      by_cases hd : p < (b.length : ℤ)
      · simp [hd, List.getD]
      · simp [hd, List.getD]
  · intro hq
    unfold validate_float
    by_cases hre : reqEmpty o v = true
    · simp [hre]
    · simp only [Bool.not_eq_true] at hre
      simp only [hre, Bool.false_eq_true, if_false]
      rw [hq]
  · intro q hv hq hp hmin hmax
    unfold validate_float
    have hreq : reqEmpty o v = false := reqEmpty_false_of_ne hv
    simp only [hreq, Bool.false_eq_true, if_false]
    rw [hq]
    dsimp only
    have hc1 : (match o.min_value with
                | some m => decide (q < m)
                | none => false) = false := by
      cases hm : o.min_value with
      | none => rfl
      | some m => exact decide_eq_false (not_lt.mpr (hmin m hm))
    have hc2 : (match o.max_value with
                | some M => decide (q > M)
                | none => false) = false := by
      cases hM : o.max_value with
      | none => rfl
      | some M => exact decide_eq_false (not_lt.mpr (hmax M hM))
    simp only [hc1, hc2, Bool.false_eq_true, if_false]
    rw [hp]

/-- Witness for C7 (amended) at value `"5.0"` with `precision = 0`: one
digit after the point exceeds 0, so both sides of the iff hold. -/
theorem C7_float_precision_amended_witness :
    validate_float rtPy "5.0" { noOpts with precision := some 0 } = .ok false ↔
      (0 : ℤ) < (((pySplitChar '.' (rtPy.floatStr 5)).getD 1 "").length : ℤ) :=
  (C7_float_precision_amended rtPy "5.0" { noOpts with precision := some 0 }).1 5 0
    (by decide) rfl rfl
    (fun m hm => Option.noConfusion (show (none : Option ℚ) = some m from hm))
    (fun M hM => Option.noConfusion (show (none : Option ℚ) = some M from hM))
    (by decide)

/-! ### Claim C8 -/

/-- The error list of a successful cell evaluation (used only under the
hypothesis that the cell evaluated without raising). -/
def okD : Except PyErr (List ErrorEntry) → List ErrorEntry
  | .ok l => l
  | .error _ => []

/-- The findings of one cell in isolation: the required-rule entries
followed by the type-rule entries, as claim C8 orders them. -/
def cell_findings (rt : PyRuntime) (col : ColumnSpec) (row : Row) (index : ℕ) :
    Except PyErr (List ErrorEntry) :=
  match check_data_type rt col row index [] with
  | .error e => .error e
  | .ok t => .ok (check_required col row index [] ++ t)

/-- The findings of one row: cell findings concatenated in
schema-declaration order. -/
def row_findings (rt : PyRuntime) : List ColumnSpec → Row → ℕ → List ErrorEntry
  | [], _, _ => []
  | col :: rest, row, index =>
      okD (cell_findings rt col row index) ++ row_findings rt rest row index

/-- The findings of the whole table: row findings concatenated in source
order, rows numbered from `index`. -/
def table_findings (rt : PyRuntime) (schema : List ColumnSpec) :
    List Row → ℕ → List ErrorEntry
  | [], _ => []
  | r :: rest, index =>
      row_findings rt schema r index ++ table_findings rt schema rest (index + 1)

theorem check_required_accum (col : ColumnSpec) (row : Row) (index : ℕ)
    (errs : List ErrorEntry) :
    check_required col row index errs = errs ++ check_required col row index [] := by
  rw [check_required_eq, check_required_eq]
  simp

theorem check_data_type_accum (rt : PyRuntime) (col : ColumnSpec) (row : Row)
    (index : ℕ) (errs t : List ErrorEntry)
    (h : check_data_type rt col row index [] = .ok t) :
    check_data_type rt col row index errs = .ok (errs ++ t) := by
  unfold check_data_type at h ⊢
  by_cases hne : row col.name ≠ ""
  · simp only [if_pos hne] at h ⊢
    cases hv : validate_data_type rt col.type (row col.name) col.options with
    | error e =>
      rw [hv] at h
      exact Except.noConfusion h
    | ok b =>
      cases b with
      | true =>
        rw [hv] at h
        dsimp only at h ⊢
        injection h with h'
        subst h'
        simp
      | false =>
        rw [hv] at h
        dsimp only at h ⊢
        injection h with h'
        subst h'
        simp
  · simp only [if_neg hne] at h ⊢
    injection h with h'
    subst h'
    simp

theorem process_row_eq (rt : PyRuntime) (schema : List ColumnSpec) (row : Row)
    (index : ℕ)
    (h : ∀ col ∈ schema, isOk (cell_findings rt col row index) = true) :
    ∀ errs, process_row rt schema row index errs =
      .ok (errs ++ row_findings rt schema row index) := by
  induction schema with
  | nil =>
    intro errs
    simp [process_row, row_findings]
  | cons col rest ih =>
    intro errs
    have hcol := h col (List.mem_cons_self col rest)
    have hcell : ∃ t, check_data_type rt col row index [] = .ok t := by
      unfold cell_findings at hcol
      cases hc : check_data_type rt col row index [] with
      | error e =>
        rw [hc] at hcol
        simp [isOk] at hcol
      | ok t => exact ⟨t, rfl⟩
    obtain ⟨t, ht⟩ := hcell
    have hcf : cell_findings rt col row index =
        .ok (check_required col row index [] ++ t) := by
      unfold cell_findings
      rw [ht]
    unfold process_row
    rw [check_required_accum, check_data_type_accum rt col row index _ t ht]
    dsimp only
    rw [ih (fun c hc => h c (List.mem_cons_of_mem col hc)) _]
    rw [show row_findings rt (col :: rest) row index =
          okD (cell_findings rt col row index) ++ row_findings rt rest row index from rfl]
    rw [hcf]
    dsimp only [okD]
    simp [List.append_assoc]

theorem process_from_eq (rt : PyRuntime) (schema : List ColumnSpec) :
    ∀ (rows : List Row) (index : ℕ) (errs : List ErrorEntry),
      (∀ col ∈ schema, ∀ r ∈ rows, ∀ i, isOk (cell_findings rt col r i) = true) →
      process_from rt schema rows index errs =
        .ok (errs ++ table_findings rt schema rows index) := by
  intro rows
  induction rows with
  | nil =>
    intro index errs _
    simp [process_from, table_findings]
  | cons r rest ih =>
    intro index errs h
    unfold process_from
    rw [process_row_eq rt schema r index
      (fun col hc => h col hc r (List.mem_cons_self r rest) index) errs]
    dsimp only
    rw [ih (index + 1) _
      (fun col hc r' hr' i => h col hc r' (List.mem_cons_of_mem r hr') i)]
    rw [show table_findings rt schema (r :: rest) index =
          row_findings rt schema r index ++ table_findings rt schema rest (index + 1) from rfl]
    simp [List.append_assoc]

/-- Claim C8: on any run in which no cell evaluation raises, the schema walk
of `main` produces exactly the concatenation, in row-major source order,
then schema-declaration column order, with required-rule entries before
type-rule entries within a cell, of every cell's findings evaluated in
isolation — a deterministic stable order with no deduplication and no
short-circuiting, where no cell's violation suppresses any other cell's
findings. -/
theorem C8_schema_walk (rt : PyRuntime) (schema : List ColumnSpec) (rows : List Row)
    (h : ∀ col ∈ schema, ∀ r ∈ rows, ∀ i, isOk (cell_findings rt col r i) = true) :
    process_table rt schema rows = .ok (table_findings rt schema rows 0) := by
  unfold process_table
  rw [process_from_eq rt schema rows 0 [] h]
  simp

/-- Witness for C8 on the spec §8 scenario: one required integer column
`qty` with bounds 0..100, a first row `"150"` (type violation) and a second
row `""` (required violation). -/
theorem C8_schema_walk_witness :
    process_table rtPy [qtyColReq] [row150, rowEmptyCell] =
      .ok (table_findings rtPy [qtyColReq] [row150, rowEmptyCell] 0) := by
  refine C8_schema_walk rtPy _ _ ?_
  intro col hc r hr i
  have hc' : col = qtyColReq := by
    simpa using hc
  subst hc'
  rcases List.mem_cons.mp hr with h1 | h2
  · subst h1
    rfl
  · have h3 : r = rowEmptyCell := by
      simpa using h2
    subst h3
    rfl
